import Mathlib

/-!
Shallow embedding of `src/skills/rho-cloud-onboard/scripts/send-test-email.py`.

The script is a single function `main` that
  1. checks `len(sys.argv) < 2` and prints a usage line / exits 1,
  2. extracts `handle`, `subject`, `body` from `sys.argv` with fixed defaults,
  3. reads `GMAIL_USER` and `GMAIL_APP_PASSWORD` via `os.environ.get` and
     prints a configuration error / exits 1 when either is falsy,
  4. composes a MIME text message to `f"{handle}@runrho.dev"`,
  5. runs `with smtplib.SMTP_SSL(...) as server: server.login(...);
     server.sendmail(...)` inside a `try`, printing a success line on
     completion and `f"ERROR: {e}"` plus exit 1 when an exception is caught.

The embedding makes the inputs explicit (`argv`, the two environment
variables, and an oracle for the outcome of the SMTP transaction) and
returns every observable of one invocation: the lines written to standard
output and to standard error, the exit status, which environment variables
were read, the trace of network events, and the composed message (if the
program got that far).
-/

namespace SendTestEmail

/-- The process environment as the script sees it: `os.environ.get` returns
`None` (here `none`) for an unset variable and the raw string otherwise. -/
structure Env where
  gmail_user : Option String
  gmail_app_password : Option String
  deriving DecidableEq, Repr

/-- Python truthiness of an `os.environ.get` result: `None` and the empty
string are falsy, every other string is truthy.  This is exactly the test
`if not gmail_user or not gmail_pass` performs on each variable. -/
def truthy : Option String → Bool
  | none => false
  | some s => s != ""

/-- The message composed by `MIMEText(body)` with the `Subject`, `From` and
`To` headers the script sets. -/
structure Message where
  subject : String
  from_addr : String
  to_addr : String
  body : String
  deriving DecidableEq, Repr

/-- One observable network interaction with the mail relay.  `openConn` is a
successfully established `SMTP_SSL` connection, `login` and `send` are the
two calls inside the `with` block, `close` is the implicit `__exit__` of the
`with` statement. -/
inductive NetEvent where
  | openConn
  | login (user password : String)
  | send (from_addr : String) (rcpt : List String) (message : Message)
  | close
  deriving DecidableEq, Repr

/-- How the SMTP transaction inside the `try` block turns out.  The
constructor records at which step an exception (with message `msg`) is
raised: establishing the connection, `server.login`, or `server.sendmail`;
`success` means all three steps complete. -/
inductive SmtpOutcome where
  | connectError (msg : String)
  | loginError (msg : String)
  | sendError (msg : String)
  | success
  deriving DecidableEq, Repr

/-- Everything observable about one invocation of the script. -/
structure ProgResult where
  stdout : List String
  stderr : List String
  exitCode : Nat
  envReads : List String
  netTrace : List NetEvent
  composed : Option Message
  deriving DecidableEq, Repr

/-- `"Usage: send-test-email.py <handle> [subject] [body]"`, printed when no
handle argument is supplied. -/
def usageLine : String := "Usage: send-test-email.py <handle> [subject] [body]"

/-- Default subject used when `sys.argv[2]` is absent. -/
def defaultSubject : String := "Test from demo"

/-- Default body used when `sys.argv[3]` is absent. -/
def defaultBody : String := "This is a test email sent during the Rho Cloud demo."

/-- First line of the configuration error. -/
def configLine1 : String := "ERROR: Set GMAIL_USER and GMAIL_APP_PASSWORD environment variables"

/-- Second line of the configuration error, containing the
credential-generation URL. -/
def configLine2 : String := "Generate an app password at: https://myaccount.google.com/apppasswords"

/-- Shallow embedding of `main()` in `send-test-email.py`.

`argv` models `sys.argv` (element 0 is the program name, so the handle is
`argv[1]`), `env` models the two environment variables, and `outcome` models
how the SMTP transaction inside the `try` block turns out.  The branches
mirror the script line by line:

* `len(sys.argv) < 2` → print usage, `sys.exit(1)`; no environment read, no
  network activity, no message composed;
* `handle = sys.argv[1]`, `subject = sys.argv[2] if len(sys.argv) > 2 else
  "Test from demo"`, `body = sys.argv[3] if len(sys.argv) > 3 else ...`;
* `if not gmail_user or not gmail_pass` → print the two configuration
  lines, `sys.exit(1)`; no network activity, no message composed;
* otherwise the message is composed with `to_addr = f"{handle}@runrho.dev"`
  and the `try` block runs.  A failure to establish the `SMTP_SSL`
  connection raises before the `with` body is entered, so no connection is
  opened and none is closed; once the connection is open the `with`
  statement closes it on every exit path, whether `login`/`sendmail` raise
  or not.  Any exception is caught, `f"ERROR: {e}"` is printed and the
  process exits 1; on success `f"Sent to {to_addr}: {subject}"` is printed
  and the process exits 0. -/
def main (argv : List String) (env : Env) (outcome : SmtpOutcome) : ProgResult :=
  if argv.length < 2 then
    { stdout := [usageLine], stderr := [], exitCode := 1,
      envReads := [], netTrace := [], composed := none }
  else
    let handle := argv.getD 1 ""
    let subject := if 2 < argv.length then argv.getD 2 "" else defaultSubject
    let body := if 3 < argv.length then argv.getD 3 "" else defaultBody
    let gmail_user := env.gmail_user
    let gmail_pass := env.gmail_app_password
    if !truthy gmail_user || !truthy gmail_pass then
      { stdout := [configLine1, configLine2], stderr := [], exitCode := 1,
        envReads := ["GMAIL_USER", "GMAIL_APP_PASSWORD"],
        netTrace := [], composed := none }
    else
      let user := gmail_user.getD ""
      let password := gmail_pass.getD ""
      let to_addr := handle ++ "@runrho.dev"
      let msg : Message :=
        { subject := subject, from_addr := user, to_addr := to_addr, body := body }
      match outcome with
      | .connectError e =>
          { stdout := ["ERROR: " ++ e], stderr := [], exitCode := 1,
            envReads := ["GMAIL_USER", "GMAIL_APP_PASSWORD"],
            netTrace := [], composed := some msg }
      | .loginError e =>
          { stdout := ["ERROR: " ++ e], stderr := [], exitCode := 1,
            envReads := ["GMAIL_USER", "GMAIL_APP_PASSWORD"],
            netTrace := [.openConn, .close], composed := some msg }
      | .sendError e =>
          { stdout := ["ERROR: " ++ e], stderr := [], exitCode := 1,
            envReads := ["GMAIL_USER", "GMAIL_APP_PASSWORD"],
            netTrace := [.openConn, .login user password, .close],
            composed := some msg }
      | .success =>
          { stdout := ["Sent to " ++ to_addr ++ ": " ++ subject], stderr := [],
            exitCode := 0,
            envReads := ["GMAIL_USER", "GMAIL_APP_PASSWORD"],
            netTrace := [.openConn, .login user password,
                         .send user [to_addr] msg, .close],
            composed := some msg }

/-- `true` exactly on the `openConn` network event. -/
def opensConn : NetEvent → Bool
  | .openConn => true
  | _ => false

/-- `true` exactly on the `close` network event. -/
def closesConn : NetEvent → Bool
  | .close => true
  | _ => false

/- Evaluation lemmas for the three regions of `main`. -/

theorem main_usage (argv : List String) (env : Env) (outcome : SmtpOutcome)
    (h : argv.length < 2) :
    main argv env outcome =
      { stdout := [usageLine], stderr := [], exitCode := 1,
        envReads := [], netTrace := [], composed := none } := by
  simp [main, h]

theorem main_config (argv : List String) (env : Env) (outcome : SmtpOutcome)
    (h : ¬ argv.length < 2)
    (hc : (!truthy env.gmail_user || !truthy env.gmail_app_password) = true) :
    main argv env outcome =
      { stdout := [configLine1, configLine2], stderr := [], exitCode := 1,
        envReads := ["GMAIL_USER", "GMAIL_APP_PASSWORD"],
        netTrace := [], composed := none } := by
  simp [main, h, hc]

theorem main_connectError (argv : List String) (env : Env) (e : String)
    (h : ¬ argv.length < 2)
    (hu : truthy env.gmail_user = true) (hp : truthy env.gmail_app_password = true) :
    main argv env (.connectError e) =
      { stdout := ["ERROR: " ++ e], stderr := [], exitCode := 1,
        envReads := ["GMAIL_USER", "GMAIL_APP_PASSWORD"],
        netTrace := [],
        composed := some
          { subject := if 2 < argv.length then argv.getD 2 "" else defaultSubject,
            from_addr := env.gmail_user.getD "",
            to_addr := argv.getD 1 "" ++ "@runrho.dev",
            body := if 3 < argv.length then argv.getD 3 "" else defaultBody } } := by
  simp [main, h, hu, hp]

theorem main_loginError (argv : List String) (env : Env) (e : String)
    (h : ¬ argv.length < 2)
    (hu : truthy env.gmail_user = true) (hp : truthy env.gmail_app_password = true) :
    main argv env (.loginError e) =
      { stdout := ["ERROR: " ++ e], stderr := [], exitCode := 1,
        envReads := ["GMAIL_USER", "GMAIL_APP_PASSWORD"],
        netTrace := [.openConn, .close],
        composed := some
          { subject := if 2 < argv.length then argv.getD 2 "" else defaultSubject,
            from_addr := env.gmail_user.getD "",
            to_addr := argv.getD 1 "" ++ "@runrho.dev",
            body := if 3 < argv.length then argv.getD 3 "" else defaultBody } } := by
  simp [main, h, hu, hp]

theorem main_sendError (argv : List String) (env : Env) (e : String)
    (h : ¬ argv.length < 2)
    (hu : truthy env.gmail_user = true) (hp : truthy env.gmail_app_password = true) :
    main argv env (.sendError e) =
      { stdout := ["ERROR: " ++ e], stderr := [], exitCode := 1,
        envReads := ["GMAIL_USER", "GMAIL_APP_PASSWORD"],
        netTrace := [.openConn,
                     .login (env.gmail_user.getD "") (env.gmail_app_password.getD ""),
                     .close],
        composed := some
          { subject := if 2 < argv.length then argv.getD 2 "" else defaultSubject,
            from_addr := env.gmail_user.getD "",
            to_addr := argv.getD 1 "" ++ "@runrho.dev",
            body := if 3 < argv.length then argv.getD 3 "" else defaultBody } } := by
  simp [main, h, hu, hp]

theorem main_success (argv : List String) (env : Env)
    (h : ¬ argv.length < 2)
    (hu : truthy env.gmail_user = true) (hp : truthy env.gmail_app_password = true) :
    main argv env .success =
      { stdout := ["Sent to " ++ (argv.getD 1 "" ++ "@runrho.dev") ++ ": " ++
                   (if 2 < argv.length then argv.getD 2 "" else defaultSubject)],
        stderr := [], exitCode := 0,
        envReads := ["GMAIL_USER", "GMAIL_APP_PASSWORD"],
        netTrace := [.openConn,
                     .login (env.gmail_user.getD "") (env.gmail_app_password.getD ""),
                     .send (env.gmail_user.getD "") [argv.getD 1 "" ++ "@runrho.dev"]
                       { subject := if 2 < argv.length then argv.getD 2 "" else defaultSubject,
                         from_addr := env.gmail_user.getD "",
                         to_addr := argv.getD 1 "" ++ "@runrho.dev",
                         body := if 3 < argv.length then argv.getD 3 "" else defaultBody },
                     .close],
        composed := some
          { subject := if 2 < argv.length then argv.getD 2 "" else defaultSubject,
            from_addr := env.gmail_user.getD "",
            to_addr := argv.getD 1 "" ++ "@runrho.dev",
            body := if 3 < argv.length then argv.getD 3 "" else defaultBody } } := by
  simp [main, h, hu, hp]

/-- An error line printed by the `except` branch is never equal to a success
line printed after `sendmail` completes: the former starts with `'E'`, the
latter with `'S'`. -/
theorem error_line_ne_sent_line (e t s : String) :
    "ERROR: " ++ e ≠ "Sent to " ++ t ++ ": " ++ s := by
  intro h
  have hd : ("ERROR: " ++ e).data = ("Sent to " ++ t ++ ": " ++ s).data :=
    congrArg String.data h
  rw [String.data_append, String.data_append, String.data_append,
      String.data_append] at hd
  have h1 : ("ERROR: " : String).data = ['E', 'R', 'R', 'O', 'R', ':', ' '] := rfl
  have h2 : ("Sent to " : String).data = ['S', 'e', 'n', 't', ' ', 't', 'o', ' '] := rfl
  rw [h1, h2] at hd
  have h3 : some 'E' = some 'S' := congrArg List.head? hd
  exact absurd (Option.some.inj h3) (by decide)

/-- In the validated region the composed message has the same canonical value
for every SMTP outcome. -/
theorem main_composed (argv : List String) (env : Env) (outcome : SmtpOutcome)
    (h : ¬ argv.length < 2)
    (hu : truthy env.gmail_user = true) (hp : truthy env.gmail_app_password = true) :
    (main argv env outcome).composed = some
      { subject := if 2 < argv.length then argv.getD 2 "" else defaultSubject,
        from_addr := env.gmail_user.getD "",
        to_addr := argv.getD 1 "" ++ "@runrho.dev",
        body := if 3 < argv.length then argv.getD 3 "" else defaultBody } := by
  cases outcome with
  | connectError e => rw [main_connectError argv env e h hu hp]
  | loginError e => rw [main_loginError argv env e h hu hp]
  | sendError e => rw [main_sendError argv env e h hu hp]
  | success => rw [main_success argv env h hu hp]

/- Claim theorems. -/

/-- Claim C1: for every invocation with a handle argument, whenever a message
is composed its recipient address is exactly the handle (`sys.argv[1]`)
concatenated with `"@runrho.dev"` by plain string append (no escaping or
validation), its subject is the second positional argument (`sys.argv[2]`)
when supplied and `"Test from demo"` otherwise, and its body is the third
positional argument (`sys.argv[3]`) when supplied and `"This is a test email
sent during the Rho Cloud demo."` otherwise. -/
theorem composed_recipient_subject_body (argv : List String) (env : Env)
    (outcome : SmtpOutcome) (m : Message)
    (hm : (main argv env outcome).composed = some m) :
    m.to_addr = argv.getD 1 "" ++ "@runrho.dev" ∧
    m.subject = (if 2 < argv.length then argv.getD 2 "" else defaultSubject) ∧
    m.body = (if 3 < argv.length then argv.getD 3 "" else defaultBody) := by
  by_cases h : argv.length < 2
  · rw [main_usage argv env outcome h] at hm
    exact absurd hm (by simp)
  · by_cases hc : (!truthy env.gmail_user || !truthy env.gmail_app_password) = true
    · rw [main_config argv env outcome h hc] at hm
      exact absurd hm (by simp)
    · have hu : truthy env.gmail_user = true := by
        cases hgu : truthy env.gmail_user
        · exact absurd (by simp [hgu]) hc
        · rfl
      have hp : truthy env.gmail_app_password = true := by
        cases hgp : truthy env.gmail_app_password
        · exact absurd (by simp [hgp]) hc
        · rfl
      rw [main_composed argv env outcome h hu hp] at hm
      have := Option.some.inj hm
      subst this
      exact ⟨rfl, rfl, rfl⟩

/-- Witness for C1 at a concrete invocation: handle `"alice"`, no subject or
body arguments, both credentials set, successful send. -/
theorem composed_recipient_subject_body_witness :
    (main ["send-test-email.py", "alice"]
        ⟨some "u@gmail.com", some "pw"⟩ .success).composed =
      some { subject := defaultSubject, from_addr := "u@gmail.com",
             to_addr := "alice@runrho.dev", body := defaultBody } ∧
    "alice@runrho.dev" = (["send-test-email.py", "alice"] : List String).getD 1 "" ++
        "@runrho.dev" ∧
    defaultSubject =
      (if 2 < (["send-test-email.py", "alice"] : List String).length
        then (["send-test-email.py", "alice"] : List String).getD 2 "" else defaultSubject) ∧
    defaultBody =
      (if 3 < (["send-test-email.py", "alice"] : List String).length
        then (["send-test-email.py", "alice"] : List String).getD 3 "" else defaultBody) := by
  refine ⟨by decide, ?_⟩
  have h := composed_recipient_subject_body ["send-test-email.py", "alice"]
    ⟨some "u@gmail.com", some "pw"⟩ .success
    { subject := defaultSubject, from_addr := "u@gmail.com",
      to_addr := "alice@runrho.dev", body := defaultBody } (by decide)
  exact ⟨h.1.symm, h.2.1.symm, h.2.2.symm⟩

/-- Claim C2: with no handle argument (`len(sys.argv) < 2`) the program
prints the usage line, exits with status 1, and performs no network
activity. -/
theorem no_handle_usage_exit (argv : List String) (env : Env)
    (outcome : SmtpOutcome) (h : argv.length < 2) :
    (main argv env outcome).stdout = [usageLine] ∧
    (main argv env outcome).exitCode = 1 ∧
    (main argv env outcome).netTrace = [] := by
  rw [main_usage argv env outcome h]
  exact ⟨rfl, rfl, rfl⟩

/-- Witness for C2: invoking with only the program name and a fully
configured environment still yields the usage line, exit 1, no network. -/
theorem no_handle_usage_exit_witness :
    (["send-test-email.py"] : List String).length < 2 ∧
    ((main ["send-test-email.py"] ⟨some "u@gmail.com", some "pw"⟩ .success).stdout
        = [usageLine] ∧
     (main ["send-test-email.py"] ⟨some "u@gmail.com", some "pw"⟩ .success).exitCode = 1 ∧
     (main ["send-test-email.py"] ⟨some "u@gmail.com", some "pw"⟩ .success).netTrace = []) :=
  ⟨by decide,
   no_handle_usage_exit ["send-test-email.py"] ⟨some "u@gmail.com", some "pw"⟩
     .success (by decide)⟩

/-- Claim C3 counterexample: an invocation with both environment variables
unset but no handle argument prints the usage line, not the configuration
message — the handle check precedes the configuration check, so the claim
as stated (quantified over every invocation with an unset variable) fails. -/
theorem config_error_claim_counterexample :
    (main ["send-test-email.py"] ⟨none, none⟩ .success).stdout = [usageLine] ∧
    configLine1 ∉ (main ["send-test-email.py"] ⟨none, none⟩ .success).stdout ∧
    configLine2 ∉ (main ["send-test-email.py"] ⟨none, none⟩ .success).stdout ∧
    usageLine ≠ configLine1 ∧ usageLine ≠ configLine2 := by
  decide

/-- Claim C3 (amended): for every invocation that supplies a handle argument
and in which either `GMAIL_USER` or `GMAIL_APP_PASSWORD` is unset, the
program prints the configuration message (whose second line contains the
credential-generation URL), exits with status 1, and attempts no network
connection. -/
theorem config_error_on_missing_env (argv : List String) (env : Env)
    (outcome : SmtpOutcome) (h : 2 ≤ argv.length)
    (henv : env.gmail_user = none ∨ env.gmail_app_password = none) :
    (main argv env outcome).stdout = [configLine1, configLine2] ∧
    (main argv env outcome).exitCode = 1 ∧
    (main argv env outcome).netTrace = [] := by
  have h' : ¬ argv.length < 2 := by omega
  have hc : (!truthy env.gmail_user || !truthy env.gmail_app_password) = true := by
    rcases henv with he | he <;> simp [he, truthy]
  rw [main_config argv env outcome h' hc]
  exact ⟨rfl, rfl, rfl⟩

/-- Witness for C3 (amended): handle `"alice"` supplied, `GMAIL_USER` unset. -/
theorem config_error_on_missing_env_witness :
    2 ≤ (["send-test-email.py", "alice"] : List String).length ∧
    ((none : Option String) = none ∨ (some "pw" : Option String) = none) ∧
    ((main ["send-test-email.py", "alice"] ⟨none, some "pw"⟩ .success).stdout
        = [configLine1, configLine2] ∧
     (main ["send-test-email.py", "alice"] ⟨none, some "pw"⟩ .success).exitCode = 1 ∧
     (main ["send-test-email.py", "alice"] ⟨none, some "pw"⟩ .success).netTrace = []) :=
  ⟨by decide, Or.inl rfl,
   config_error_on_missing_env ["send-test-email.py", "alice"] ⟨none, some "pw"⟩
     .success (by decide) (Or.inl rfl)⟩

/-- Claim C4: whenever the connect/authenticate/send sequence raises an error
(at any of the three steps) in a validated invocation, the program prints
exactly that error's message prefixed with `"ERROR: "`, exits with status 1
(non-zero), and never prints a success line of the form
`"Sent to <addr>: <subject>"`. -/
theorem smtp_error_reported (argv : List String) (env : Env)
    (outcome : SmtpOutcome) (e : String) (h : 2 ≤ argv.length)
    (hu : truthy env.gmail_user = true) (hp : truthy env.gmail_app_password = true)
    (herr : outcome = .connectError e ∨ outcome = .loginError e ∨
            outcome = .sendError e) :
    (main argv env outcome).stdout = ["ERROR: " ++ e] ∧
    (main argv env outcome).exitCode = 1 ∧
    ∀ t s : String, ("Sent to " ++ t ++ ": " ++ s) ∉ (main argv env outcome).stdout := by
  have h' : ¬ argv.length < 2 := by omega
  have key : (main argv env outcome).stdout = ["ERROR: " ++ e] ∧
      (main argv env outcome).exitCode = 1 := by
    rcases herr with rfl | rfl | rfl
    · rw [main_connectError argv env e h' hu hp]; exact ⟨rfl, rfl⟩
    · rw [main_loginError argv env e h' hu hp]; exact ⟨rfl, rfl⟩
    · rw [main_sendError argv env e h' hu hp]; exact ⟨rfl, rfl⟩
  refine ⟨key.1, key.2, ?_⟩
  intro t s hmem
  rw [key.1] at hmem
  simp only [List.mem_singleton] at hmem
  exact error_line_ne_sent_line e t s hmem.symm

/-- Witness for C4: authentication fails with message `"auth failed"` for
handle `"alice"` with both credentials set. -/
theorem smtp_error_reported_witness :
    (main ["send-test-email.py", "alice"] ⟨some "u@gmail.com", some "pw"⟩
        (.loginError "auth failed")).stdout = ["ERROR: " ++ "auth failed"] ∧
    (main ["send-test-email.py", "alice"] ⟨some "u@gmail.com", some "pw"⟩
        (.loginError "auth failed")).exitCode = 1 ∧
    ("Sent to " ++ "alice@runrho.dev" ++ ": " ++ defaultSubject) ∉
      (main ["send-test-email.py", "alice"] ⟨some "u@gmail.com", some "pw"⟩
        (.loginError "auth failed")).stdout := by
  have h := smtp_error_reported ["send-test-email.py", "alice"]
    ⟨some "u@gmail.com", some "pw"⟩ (.loginError "auth failed") "auth failed"
    (by decide) (by decide) (by decide) (Or.inr (Or.inl rfl))
  exact ⟨h.1, h.2.1, h.2.2 "alice@runrho.dev" defaultSubject⟩

/-- Claim C5: when the transmission succeeds in a validated invocation, the
program prints the line `"Sent to <recipient>: <subject>"` — which contains
the literal recipient address and the subject used — and exits with
status 0. -/
theorem success_reported (argv : List String) (env : Env)
    (h : 2 ≤ argv.length)
    (hu : truthy env.gmail_user = true) (hp : truthy env.gmail_app_password = true) :
    (main argv env .success).stdout =
      ["Sent to " ++ (argv.getD 1 "" ++ "@runrho.dev") ++ ": " ++
        (if 2 < argv.length then argv.getD 2 "" else defaultSubject)] ∧
    (main argv env .success).exitCode = 0 := by
  have h' : ¬ argv.length < 2 := by omega
  rw [main_success argv env h' hu hp]
  exact ⟨rfl, rfl⟩

/-- Witness for C5: successful send to `"alice"` with subject argument
`"Hi"`. -/
theorem success_reported_witness :
    (main ["send-test-email.py", "alice", "Hi"]
        ⟨some "u@gmail.com", some "pw"⟩ .success).stdout =
      ["Sent to " ++ ((["send-test-email.py", "alice", "Hi"] : List String).getD 1 ""
          ++ "@runrho.dev") ++ ": " ++
        (if 2 < (["send-test-email.py", "alice", "Hi"] : List String).length
          then (["send-test-email.py", "alice", "Hi"] : List String).getD 2 ""
          else defaultSubject)] ∧
    (main ["send-test-email.py", "alice", "Hi"]
        ⟨some "u@gmail.com", some "pw"⟩ .success).exitCode = 0 :=
  success_reported ["send-test-email.py", "alice", "Hi"]
    ⟨some "u@gmail.com", some "pw"⟩ (by decide) (by decide) (by decide)

/-- Claim C6 counterexample: an invocation whose handle argument is the empty
string — present but not a non-empty string — is not rejected with a usage
error: the program reads the configuration, composes recipient
`"@runrho.dev"`, sends, and exits 0. -/
theorem empty_handle_accepted :
    (main ["send-test-email.py", ""] ⟨some "u@gmail.com", some "pw"⟩
        .success).stdout = ["Sent to @runrho.dev: Test from demo"] ∧
    (main ["send-test-email.py", ""] ⟨some "u@gmail.com", some "pw"⟩
        .success).exitCode = 0 ∧
    (main ["send-test-email.py", ""] ⟨some "u@gmail.com", some "pw"⟩
        .success).stdout ≠ [usageLine] ∧
    (main ["send-test-email.py", ""] ⟨some "u@gmail.com", some "pw"⟩
        .success).envReads ≠ [] ∧
    (main ["send-test-email.py", ""] ⟨some "u@gmail.com", some "pw"⟩
        .success).netTrace ≠ [] := by
  decide

/-- Claim C6 (amended): the handle argument is required to be present: every
invocation that supplies no handle argument fails immediately with the usage
error, reads no environment configuration, opens no connection, and composes
no message.  (A handle that is present but empty is accepted — only presence
is checked.) -/
theorem handle_presence_required (argv : List String) (env : Env)
    (outcome : SmtpOutcome) (h : argv.length < 2) :
    (main argv env outcome).stdout = [usageLine] ∧
    (main argv env outcome).exitCode = 1 ∧
    (main argv env outcome).envReads = [] ∧
    (main argv env outcome).netTrace = [] ∧
    (main argv env outcome).composed = none := by
  rw [main_usage argv env outcome h]
  exact ⟨rfl, rfl, rfl, rfl, rfl⟩

/-- Witness for C6 (amended): an invocation with an empty `sys.argv`. -/
theorem handle_presence_required_witness :
    ([] : List String).length < 2 ∧
    ((main [] ⟨some "u@gmail.com", some "pw"⟩ .success).stdout = [usageLine] ∧
     (main [] ⟨some "u@gmail.com", some "pw"⟩ .success).exitCode = 1 ∧
     (main [] ⟨some "u@gmail.com", some "pw"⟩ .success).envReads = [] ∧
     (main [] ⟨some "u@gmail.com", some "pw"⟩ .success).netTrace = [] ∧
     (main [] ⟨some "u@gmail.com", some "pw"⟩ .success).composed = none) :=
  ⟨by decide,
   handle_presence_required [] ⟨some "u@gmail.com", some "pw"⟩ .success (by decide)⟩

/-- Claim C7 counterexample: in a validated invocation where establishing the
`SMTP_SSL` connection itself fails, zero connections are opened — not
exactly one as the claim states. -/
theorem connect_failure_opens_nothing :
    2 ≤ (["send-test-email.py", "alice"] : List String).length ∧
    truthy (some "u@gmail.com") = true ∧ truthy (some "pw") = true ∧
    (main ["send-test-email.py", "alice"] ⟨some "u@gmail.com", some "pw"⟩
        (.connectError "connection refused")).netTrace.countP opensConn = 0 := by
  decide

/-- Claim C7 (amended): in every validated invocation at most one connection
to the mail relay is opened — exactly one whenever the connection attempt
itself does not fail — and the number of closes equals the number of opens,
so every opened connection is closed on every exit path, success or error. -/
theorem connection_open_close_discipline (argv : List String) (env : Env)
    (outcome : SmtpOutcome) (h : 2 ≤ argv.length)
    (hu : truthy env.gmail_user = true) (hp : truthy env.gmail_app_password = true) :
    (main argv env outcome).netTrace.countP opensConn ≤ 1 ∧
    ((∀ e, outcome ≠ .connectError e) →
      (main argv env outcome).netTrace.countP opensConn = 1) ∧
    (main argv env outcome).netTrace.countP closesConn =
      (main argv env outcome).netTrace.countP opensConn := by
  have h' : ¬ argv.length < 2 := by omega
  cases outcome with
  | connectError e =>
      rw [main_connectError argv env e h' hu hp]
      exact ⟨by simp, fun hno => absurd rfl (hno e), by simp⟩
  | loginError e =>
      rw [main_loginError argv env e h' hu hp]
      refine ⟨?_, fun _ => ?_, ?_⟩ <;>
        simp [List.countP_cons, List.countP_nil, opensConn, closesConn]
  | sendError e =>
      rw [main_sendError argv env e h' hu hp]
      refine ⟨?_, fun _ => ?_, ?_⟩ <;>
        simp [List.countP_cons, List.countP_nil, opensConn, closesConn]
  | success =>
      rw [main_success argv env h' hu hp]
      refine ⟨?_, fun _ => ?_, ?_⟩ <;>
        simp [List.countP_cons, List.countP_nil, opensConn, closesConn]

/-- Witness for C7 (amended): successful send for handle `"alice"`. -/
theorem connection_open_close_discipline_witness :
    2 ≤ (["send-test-email.py", "alice"] : List String).length ∧
    ((main ["send-test-email.py", "alice"] ⟨some "u@gmail.com", some "pw"⟩
        .success).netTrace.countP opensConn ≤ 1 ∧
     ((∀ e, (SmtpOutcome.success : SmtpOutcome) ≠ .connectError e) →
       (main ["send-test-email.py", "alice"] ⟨some "u@gmail.com", some "pw"⟩
         .success).netTrace.countP opensConn = 1) ∧
     (main ["send-test-email.py", "alice"] ⟨some "u@gmail.com", some "pw"⟩
        .success).netTrace.countP closesConn =
       (main ["send-test-email.py", "alice"] ⟨some "u@gmail.com", some "pw"⟩
         .success).netTrace.countP opensConn) :=
  ⟨by decide,
   connection_open_close_discipline ["send-test-email.py", "alice"]
     ⟨some "u@gmail.com", some "pw"⟩ .success (by decide) (by decide) (by decide)⟩

/-- When the configuration test `if not gmail_user or not gmail_pass` does
not fire, both variables are truthy. -/
theorem truthy_of_config_pass (u p : Option String)
    (hc : ¬ ((!truthy u || !truthy p) = true)) :
    truthy u = true ∧ truthy p = true := by
  cases hu : truthy u
  · exact absurd (by simp [hu]) hc
  · cases hpp : truthy p
    · exact absurd (by simp [hpp]) hc
    · exact ⟨rfl, rfl⟩

/-- Claim C8: every line the program emits — usage, configuration and
transmission errors included — goes through `print`, i.e. to standard
output; on no input does the program write anything to the separate error
stream. -/
theorem nothing_written_to_stderr (argv : List String) (env : Env)
    (outcome : SmtpOutcome) :
    (main argv env outcome).stderr = [] := by
  by_cases h : argv.length < 2
  · rw [main_usage argv env outcome h]
  · by_cases hc : (!truthy env.gmail_user || !truthy env.gmail_app_password) = true
    · rw [main_config argv env outcome h hc]
    · obtain ⟨hu, hp⟩ := truthy_of_config_pass env.gmail_user env.gmail_app_password hc
      cases outcome with
      | connectError e => rw [main_connectError argv env e h hu hp]
      | loginError e => rw [main_loginError argv env e h hu hp]
      | sendError e => rw [main_sendError argv env e h hu hp]
      | success => rw [main_success argv env h hu hp]

/-- Claim C9 counterexample: with both variables set to the empty string but
no handle argument, the program prints the usage line, not the configuration
error — the handle check precedes the configuration check, so the claim as
stated (quantified over every invocation with an empty-string variable)
fails. -/
theorem empty_env_claim_counterexample :
    (main ["send-test-email.py"] ⟨some "", some ""⟩ .success).stdout = [usageLine] ∧
    configLine1 ∉ (main ["send-test-email.py"] ⟨some "", some ""⟩ .success).stdout ∧
    configLine2 ∉ (main ["send-test-email.py"] ⟨some "", some ""⟩ .success).stdout := by
  decide

/-- Claim C9 (amended): an environment variable set to the empty string is
treated like an absent one: in every invocation that supplies a handle and
has `GMAIL_USER` or `GMAIL_APP_PASSWORD` equal to `""`, the program emits
the configuration error, exits with status 1, and attempts no connection —
exactly as when the variable is unset. -/
theorem empty_env_var_treated_as_absent (argv : List String) (env : Env)
    (outcome : SmtpOutcome) (h : 2 ≤ argv.length)
    (henv : env.gmail_user = some "" ∨ env.gmail_app_password = some "") :
    (main argv env outcome).stdout = [configLine1, configLine2] ∧
    (main argv env outcome).exitCode = 1 ∧
    (main argv env outcome).netTrace = [] := by
  have h' : ¬ argv.length < 2 := by omega
  have hc : (!truthy env.gmail_user || !truthy env.gmail_app_password) = true := by
    rcases henv with he | he <;> simp [he, truthy]
  rw [main_config argv env outcome h' hc]
  exact ⟨rfl, rfl, rfl⟩

/-- Witness for C9 (amended): handle `"alice"`, `GMAIL_USER` set to `""`. -/
theorem empty_env_var_treated_as_absent_witness :
    2 ≤ (["send-test-email.py", "alice"] : List String).length ∧
    ((some "" : Option String) = some "" ∨ (some "pw" : Option String) = some "") ∧
    ((main ["send-test-email.py", "alice"] ⟨some "", some "pw"⟩ .success).stdout
        = [configLine1, configLine2] ∧
     (main ["send-test-email.py", "alice"] ⟨some "", some "pw"⟩ .success).exitCode = 1 ∧
     (main ["send-test-email.py", "alice"] ⟨some "", some "pw"⟩ .success).netTrace = []) :=
  ⟨by decide, Or.inl rfl,
   empty_env_var_treated_as_absent ["send-test-email.py", "alice"]
     ⟨some "", some "pw"⟩ .success (by decide) (Or.inl rfl)⟩

/-- Claim C10: positional arguments beyond the third have no effect: two
invocations that agree on the program name, handle, subject and body
arguments and on the environment and SMTP outcome, and differ only in extra
trailing arguments, produce identical results — output, exit status,
environment reads, network trace and composed message alike. -/
theorem extra_args_ignored (p h s b : String) (r1 r2 : List String)
    (env : Env) (outcome : SmtpOutcome) :
    main (p :: h :: s :: b :: r1) env outcome =
      main (p :: h :: s :: b :: r2) env outcome := by
  have e1 : ∀ r : List String, ¬ (p :: h :: s :: b :: r).length < 2 := by
    intro r; simp [List.length_cons]
  have g1 : ∀ r : List String, (p :: h :: s :: b :: r).getD 1 "" = h := fun _ => rfl
  have g2 : ∀ r : List String, (p :: h :: s :: b :: r).getD 2 "" = s := fun _ => rfl
  have g3 : ∀ r : List String, (p :: h :: s :: b :: r).getD 3 "" = b := fun _ => rfl
  have l2 : ∀ r : List String, 2 < (p :: h :: s :: b :: r).length := by
    intro r; simp [List.length_cons]
  have l3 : ∀ r : List String, 3 < (p :: h :: s :: b :: r).length := by
    intro r; simp [List.length_cons]
  by_cases hc : (!truthy env.gmail_user || !truthy env.gmail_app_password) = true
  · rw [main_config _ env outcome (e1 r1) hc, main_config _ env outcome (e1 r2) hc]
  · obtain ⟨hu, hp⟩ := truthy_of_config_pass env.gmail_user env.gmail_app_password hc
    cases outcome with
    | connectError e =>
        rw [main_connectError _ env e (e1 r1) hu hp,
            main_connectError _ env e (e1 r2) hu hp]
        simp [g1, g2, g3, l2 r1, l2 r2, l3 r1, l3 r2]
    | loginError e =>
        rw [main_loginError _ env e (e1 r1) hu hp,
            main_loginError _ env e (e1 r2) hu hp]
        simp [g1, g2, g3, l2 r1, l2 r2, l3 r1, l3 r2]
    | sendError e =>
        rw [main_sendError _ env e (e1 r1) hu hp,
            main_sendError _ env e (e1 r2) hu hp]
        simp [g1, g2, g3, l2 r1, l2 r2, l3 r1, l3 r2]
    | success =>
        rw [main_success _ env (e1 r1) hu hp, main_success _ env (e1 r2) hu hp]
        simp [g1, g2, g3, l2 r1, l2 r2, l3 r1, l3 r2]
